import Mathlib

/-!
Verification development for the mini-ecu-v2 runtime core.

Shallow embedding conventions:
* C `float` quantities are modelled as exact rationals (`ℚ`); every float
  literal of the source becomes the rational it denotes (0.98f ↦ 49/50 …).
* `uint16_t` is modelled as `ℕ` with explicit `% 65536` where the source
  stores into a `uint16_t`.
* A C cast `(uint16_t)f` of a float truncates toward zero; for values
  outside `[0, 65535]` ISO C leaves it undefined, and we model the wrap
  observed on the 32-bit target (convert to a 32-bit signed integer, then
  truncate mod 2^16), which is what the rpm-increment in `Vehicle_Update`
  relies on.
* Functions taking a `VehicleState_t *` are split into a body on
  `VehicleState_t` (used when the pointer is non-NULL) and a `_ptr`
  wrapper on `Option VehicleState_t` carrying the NULL guard.
-/

/-- Truncation of a rational toward zero, the rounding used by C
float-to-integer conversions. -/
def truncQ (q : ℚ) : ℤ :=
  if q < 0 then -⌊-q⌋ else ⌊q⌋

/-- Conversion of a float value to `uint16_t` as performed on the target:
truncate toward zero, then wrap modulo 2^16 (two's-complement behaviour of
the intermediate 32-bit conversion; in-range values are unchanged). -/
def u16ofQ (q : ℚ) : ℕ :=
  (truncQ q % 65536).toNat

/-- `clamp_f` from vehicle.c (lines 31–36). -/
def clamp_f (v min max : ℚ) : ℚ :=
  if v < min then min
  else if max < v then max
  else v

/-- `VehicleState_t` from vehicle.h: speed (float, km/h), engine rpm
(uint16_t), coolant temperature (float, °C). -/
structure VehicleState_t where
  speed_kph : ℚ
  engine_rpm : ℕ
  coolant_temp_c : ℚ
deriving DecidableEq, Repr

/-- Body of `Vehicle_Init` (vehicle.c lines 38–45), for a non-NULL state. -/
def Vehicle_Init : VehicleState_t :=
  { speed_kph := 0, engine_rpm := 800, coolant_temp_c := 30 }

/-- Body of `Vehicle_Update` (vehicle.c lines 69–101), for a non-NULL state.
The `dt_s <= 0.0f` early return is kept; the rpm increment
`vs->engine_rpm += (uint16_t)((target_rpm - vs->engine_rpm) * 0.3f)` is the
uint16 wrap of the truncated float product added mod 2^16. -/
def Vehicle_Update (vs : VehicleState_t) (dt_s : ℚ) : VehicleState_t :=
  if dt_s ≤ 0 then vs
  else
    let speed1 := clamp_f (vs.speed_kph * (49/50)) 0 200
    let target_rpm : ℚ := 800 + speed1 * 50
    let rpm1 : ℕ :=
      (vs.engine_rpm + u16ofQ ((target_rpm - (vs.engine_rpm : ℚ)) * (3/10))) % 65536
    let rpm2 : ℕ := u16ofQ (clamp_f (rpm1 : ℚ) 600 6000)
    let temp1 : ℚ :=
      if 1000 < rpm2 then
        vs.coolant_temp_c + (90 - vs.coolant_temp_c) * (1/20)
      else
        vs.coolant_temp_c - 1/100
    { speed_kph := speed1
      engine_rpm := rpm2
      coolant_temp_c := clamp_f temp1 20 110 }

/-- Body of `Vehicle_SetTargetSpeed` (vehicle.c lines 103–108), for a
non-NULL state. -/
def Vehicle_SetTargetSpeed (vs : VehicleState_t) (speed_kph : ℚ) : VehicleState_t :=
  { vs with speed_kph := clamp_f speed_kph 0 200 }

/-- Body of `Vehicle_Force` (vehicle.c lines 110–118), for a non-NULL state.
`rpm` is the `uint16_t` parameter (promoted to float for `clamp_f`, the
result cast back to `uint16_t`). -/
def Vehicle_Force (vs : VehicleState_t) (speed : ℚ) (rpm : ℕ) (temp_c : ℚ) :
    VehicleState_t :=
  { vs with
      speed_kph := clamp_f speed 0 200
      engine_rpm := u16ofQ (clamp_f (rpm : ℚ) 600 6000)
      coolant_temp_c := clamp_f temp_c 20 110 }

/-- `Vehicle_Init` with its NULL-pointer guard (vehicle.c line 40). -/
def Vehicle_Init_ptr (vs : Option VehicleState_t) : Option VehicleState_t :=
  match vs with
  | none => none
  | some _ => some Vehicle_Init

/-- `Vehicle_Update` with its NULL-pointer guard (vehicle.c line 71). -/
def Vehicle_Update_ptr (vs : Option VehicleState_t) (dt_s : ℚ) :
    Option VehicleState_t :=
  match vs with
  | none => none
  | some s => some (Vehicle_Update s dt_s)

/-- `Vehicle_SetTargetSpeed` with its NULL-pointer guard (vehicle.c line 105). -/
def Vehicle_SetTargetSpeed_ptr (vs : Option VehicleState_t) (speed_kph : ℚ) :
    Option VehicleState_t :=
  match vs with
  | none => none
  | some s => some (Vehicle_SetTargetSpeed s speed_kph)

/-- `Vehicle_Force` with its NULL-pointer guard (vehicle.c line 112). -/
def Vehicle_Force_ptr (vs : Option VehicleState_t) (speed : ℚ) (rpm : ℕ)
    (temp_c : ℚ) : Option VehicleState_t :=
  match vs with
  | none => none
  | some s => some (Vehicle_Force s speed rpm temp_c)

/-- The documented field invariants of `VehicleState_t` (spec §3 and the
clamp ranges of vehicle.c). -/
def VehicleInv (vs : VehicleState_t) : Prop :=
  0 ≤ vs.speed_kph ∧ vs.speed_kph ≤ 200 ∧
  600 ≤ vs.engine_rpm ∧ vs.engine_rpm ≤ 6000 ∧
  20 ≤ vs.coolant_temp_c ∧ vs.coolant_temp_c ≤ 110

instance (vs : VehicleState_t) : Decidable (VehicleInv vs) := by
  unfold VehicleInv; infer_instance

/-- Modelled from the spec: the payload built by `CAN_IF_SendTelemetry`.
`can_if.c` is not in the source tree — only its declaration and frame-format
documentation in can_if.h (lines 60–70) are — so the encoder is modelled
from that documentation and spec §4.2: bytes 0–1 = speed scaled ×10 and
rounded to an unsigned 16-bit integer, little-endian; bytes 2–3 = engine
rpm as an unsigned 16-bit integer, little-endian; bytes 4–5 = temperature
scaled ×10 and rounded to a signed 16-bit integer (two's complement),
little-endian. -/
def CAN_IF_TelemetryPayload (vs : VehicleState_t) : List ℕ :=
  let s : ℕ := ((round (vs.speed_kph * 10)) % 65536).toNat
  let r : ℕ := vs.engine_rpm % 65536
  let t : ℕ := ((round (vs.coolant_temp_c * 10)) % 65536).toNat
  [s % 256, s / 256, r % 256, r / 256, t % 256, t / 256]

/-- Global state of the LogFacility: whether a sink UART is configured
(`s_logUart != NULL`) and the current minimum level (`s_logLevel`,
default `LOG_LEVEL_INFO`). -/
structure LogState where
  logUart : Bool
  logLevel : ℕ
deriving DecidableEq, Repr

/-- `log_level_t` values from log.h lines 20–26. -/
def LOG_LEVEL_ERROR : ℕ := 0
def LOG_LEVEL_WARN : ℕ := 1
def LOG_LEVEL_INFO : ℕ := 2
def LOG_LEVEL_DEBUG : ℕ := 3

/-- `Log_Write` from log.c (lines 31–80), returning the list of lines
transmitted on the log UART (the function mutates no logger state). The
printf format pass is abstracted as the already-formatted message `msg`;
`vsnprintf` truncates it to 127 characters, and the final `snprintf` line
is truncated to the 160-byte output buffer (when truncated, the byte count
transmitted includes the terminating NUL, as in the source). -/
def Log_Write (st : LogState) (level : ℕ) (module : Option String)
    (msg : String) : List String :=
  if st.logLevel < level then []
  else if st.logUart = false then []
  else
    let msgBuf := if msg.length ≥ 128 then msg.take 127 else msg
    let levelChar : Char :=
      if level = LOG_LEVEL_ERROR then 'E'
      else if level = LOG_LEVEL_WARN then 'W'
      else if level = LOG_LEVEL_INFO then 'I'
      else if level = LOG_LEVEL_DEBUG then 'D'
      else '?'
    let moduleStr := module.getD ("GEN")
    let full := (String.mk [levelChar]) ++ ("][") ++ moduleStr ++ ("] ") ++ msgBuf
    let full := ("[") ++ full ++ ("\x0d\x0a")
    [if full.length ≥ 160 then (full.take 159).push '\x00' else full]

/-- The CLI RX ring buffer of cli_if.c (lines 40–43): `CLI_RX_BUF_SIZE`
is 64, the head and tail are `uint8_t` indices that the code keeps in
`[0, 64)` by taking `% CLI_RX_BUF_SIZE` on every advance, modelled as
`Fin 64`. -/
structure CliRx where
  buf : Fin 64 → ℕ
  head : Fin 64
  tail : Fin 64

/-- `cli_push` from cli_if.c (lines 65–75): store at `head` and advance it
mod 64 unless that would make it equal `tail`, in which case the byte is
dropped. (`Fin 64` addition is addition mod 64.) -/
def cli_push (c : ℕ) (rb : CliRx) : CliRx :=
  let next := rb.head + 1
  if next ≠ rb.tail then
    { rb with buf := Function.update rb.buf rb.head c, head := next }
  else
    rb

/-- `cli_pop` from cli_if.c (lines 82–90), returning the C result triple:
the `int` return value, the byte written through the out-pointer (if any),
and the buffer state afterwards. -/
def cli_pop (rb : CliRx) : ℕ × Option ℕ × CliRx :=
  if rb.head = rb.tail then
    (0, none, rb)
  else
    (1, some (rb.buf rb.tail), { rb with tail := rb.tail + 1 })

/-- Number of unread bytes pending in the ring buffer:
`(head - tail) mod 64`. -/
def pendingBytes (rb : CliRx) : ℕ :=
  (rb.head.val + 64 - rb.tail.val) % 64

/-- The ring buffer as initialized by `CLI_IF_Init` (cli_if.c lines
233–234): `head = tail = 0`; the storage array is uninitialized in the
source and modelled as zeroed. -/
def cliRxInit : CliRx :=
  { buf := fun _ => 0, head := 0, tail := 0 }

/-- One interleaving step on the ring buffer: either the ISR pushes a byte
or the task pops one. -/
inductive CliRxOp where
  | push (c : ℕ)
  | pop
deriving DecidableEq

/-- Apply one `CliRxOp` to the buffer state. -/
def cliRxStep (rb : CliRx) (op : CliRxOp) : CliRx :=
  match op with
  | CliRxOp.push c => cli_push c rb
  | CliRxOp.pop => (cli_pop rb).2.2

/-- Module-level state of the TerminalInterface (cli_if.c): whether a UART
is bound (`s_cliUart != NULL`), the bound vehicle (`s_vehicle`), the CAN RX
logging flag set through `CAN_IF_SetLogging` (modelled from the spec §4.3,
can_if.c being absent from the tree), the line accumulator (`line`/`idx`,
capacity 31 characters), and the bytes transmitted on the CLI UART in call
order. -/
structure CliState where
  uart : Bool
  vehicle : Option VehicleState_t
  canLogging : Bool
  line : List Char
  out : List String
deriving DecidableEq

/-- `cli_uart_print` from cli_if.c (lines 49–60): transmits `s` on the CLI
UART unless no UART is bound or the string is empty. -/
def cli_uart_print (st : CliState) (s : String) : CliState :=
  if st.uart = true ∧ s ≠ ("") then { st with out := st.out ++ [s] } else st

/-- Digit run to a natural number, for the `atof` model. -/
def digitsToNat (cs : List Char) : ℕ :=
  cs.foldl (fun a c => a * 10 + (c.toNat - 48)) 0

/-- Models C `atof` as used on `&line[10]` (cli_if.c line 163) for simple
decimal inputs: optional leading spaces, optional sign, an integer digit
run, and an optional fractional digit run; yields 0 when no digits parse,
as `atof` does. Exponent forms are not modelled. -/
def atofQ (cs : List Char) : ℚ :=
  let cs := cs.dropWhile (fun c => c = ' ')
  let signed : ℚ × List Char :=
    match cs with
    | '-' :: rest => (-1, rest)
    | '+' :: rest => (1, rest)
    | _ => (1, cs)
  let intPart := signed.2.takeWhile Char.isDigit
  let rest := signed.2.dropWhile Char.isDigit
  let frac : List Char :=
    match rest with
    | '.' :: r => r.takeWhile Char.isDigit
    | _ => []
  signed.1 * ((digitsToNat intPart : ℚ) + (digitsToNat frac : ℚ) / 10 ^ frac.length)

/-- The static help text printed by `help`/`h` (cli_if.c lines 152–159). -/
def cli_help_text : String :=
  "\r\nCommands:\r\n  help          - show this help\r\n  veh speed X   - set target speed to X km/h\r\n  veh cool-hot  - inject coolant overheat\r\n  log on        - enable CAN RX logging\r\n  log off       - disable CAN RX logging\r\n> "

/-- Command dispatch (cli_if.c lines 150–207), run by `cli_handle_char` on
a completed line; the tests are in source order (`strcmp`/`strncmp` on the
NUL-terminated accumulator are list equality / 10-character-prefix
equality). The `LOG_DEBUG`/`LOG_INFO`/`LOG_WARN` calls go to the log UART,
not the CLI UART, and are not part of the CLI output. -/
def cli_dispatch (st : CliState) (line : List Char) : CliState :=
  if line = ("h").toList ∨ line = ("help").toList then
    cli_uart_print st cli_help_text
  else if line.take 10 = ("veh speed ").toList then
    let v := atofQ (line.drop 10)
    match st.vehicle with
    | some vs =>
        cli_uart_print { st with vehicle := some (Vehicle_SetTargetSpeed vs v) }
          ("\r\nOK: speed updated\r\n> ")
    | none => cli_uart_print st ("\r\nNo vehicle bound to CLI.\r\n> ")
  else if line = ("veh cool-hot").toList then
    match st.vehicle with
    | some vs =>
        let st1 := { st with
          vehicle := some (Vehicle_Force vs vs.speed_kph vs.engine_rpm 115) }
        cli_uart_print st1 ("\r\nInjected: coolant overheat\r\n> ")
    | none => cli_uart_print st ("\r\nNo vehicle bound to CLI.\r\n> ")
  else if line = ("log on").toList then
    cli_uart_print { st with canLogging := true } ("\r\nCAN RX logging: ON\r\n> ")
  else if line = ("log off").toList then
    cli_uart_print { st with canLogging := false } ("\r\nCAN RX logging: OFF\r\n> ")
  else
    cli_uart_print st ("\r\nUnknown command. Try \x27help\x27.\r\n> ")

/-- `cli_handle_char` from cli_if.c (lines 128–223): on CR/LF, dispatch a
non-empty accumulated line (after resetting the accumulator, as the source
does before parsing) or just re-print the prompt; otherwise append and
echo while fewer than `sizeof(line) - 1 = 31` characters are stored, and
ignore the byte entirely once the accumulator is full. -/
def cli_handle_char (st : CliState) (c : Char) : CliState :=
  if c = '\r' ∨ c = '\n' then
    if st.line.length = 0 then
      cli_uart_print st ("\r\n> ")
    else
      cli_dispatch { st with line := [] } st.line
  else if st.line.length < 31 then
    { st with
        line := st.line ++ [c]
        out := if st.uart = true then st.out ++ [String.mk [c]] else st.out }
  else
    st

/-- A C `float` as the comparisons of `clamp_f` observe it: an ordinary
(finite or infinite-magnitude, here rational) value, or a NaN. Every
ordered comparison involving a NaN is false in IEEE-754, which is what
lets `clamp_f` propagate NaN unclamped. This type refines the plain `ℚ`
embedding used elsewhere, for the one claim whose truth turns on NaN. -/
inductive CFloat where
  | val (q : ℚ)
  | nan
deriving DecidableEq, Repr

/-- The C `<` on floats: false whenever either operand is NaN. -/
def cfLt : CFloat → CFloat → Prop
  | CFloat.val x, CFloat.val y => x < y
  | CFloat.val _, CFloat.nan => False
  | CFloat.nan, _ => False

instance : ∀ a b : CFloat, Decidable (cfLt a b)
  | CFloat.val x, CFloat.val y => inferInstanceAs (Decidable (x < y))
  | CFloat.val _, CFloat.nan => inferInstanceAs (Decidable False)
  | CFloat.nan, CFloat.val _ => inferInstanceAs (Decidable False)
  | CFloat.nan, CFloat.nan => inferInstanceAs (Decidable False)

/-- `clamp_f` from vehicle.c (lines 31–36) over NaN-aware floats: both
`v < min` and `v > max` are false for a NaN `v`, so a NaN input is
returned unchanged — the clamp does NOT force it into `[min, max]`. -/
def clamp_f_float (v min max : CFloat) : CFloat :=
  if cfLt v min then min
  else if cfLt max v then max
  else v

/-- `VehicleState_t` with its float fields carried as NaN-aware floats. -/
structure VehicleStateFloat where
  speed_kph : CFloat
  engine_rpm : ℕ
  coolant_temp_c : CFloat
deriving DecidableEq, Repr

/-- Body of `Vehicle_SetTargetSpeed` (vehicle.c lines 103–108) over
NaN-aware floats. -/
def Vehicle_SetTargetSpeed_float (vs : VehicleStateFloat) (speed_kph : CFloat) :
    VehicleStateFloat :=
  { vs with speed_kph := clamp_f_float speed_kph (CFloat.val 0) (CFloat.val 200) }

/-- Membership of a NaN-aware float in a closed interval; NaN lies in no
interval. -/
def cfInRange (x : CFloat) (lo hi : ℚ) : Prop :=
  match x with
  | CFloat.val q => lo ≤ q ∧ q ≤ hi
  | CFloat.nan => False

instance (x : CFloat) (lo hi : ℚ) : Decidable (cfInRange x lo hi) :=
  match x with
  | CFloat.val q => inferInstanceAs (Decidable (lo ≤ q ∧ q ≤ hi))
  | CFloat.nan => inferInstanceAs (Decidable False)

/-! ### Basic lemmas about the clamp helper -/

lemma clamp_f_mem (v min max : ℚ) (h : min ≤ max) :
    min ≤ clamp_f v min max ∧ clamp_f v min max ≤ max := by
  unfold clamp_f
  split_ifs with h1 h2 <;> constructor <;> linarith

lemma clamp_f_eq_self (v min max : ℚ) (h1 : min ≤ v) (h2 : v ≤ max) :
    clamp_f v min max = v := by
  unfold clamp_f
  split_ifs with ha hb <;> first | rfl | linarith

lemma truncQ_natCast (n : ℕ) : truncQ (n : ℚ) = n := by
  unfold truncQ
  rw [if_neg (not_lt.mpr (by positivity)), Int.floor_natCast]

lemma u16ofQ_natCast (n : ℕ) (h : n < 65536) : u16ofQ (n : ℚ) = n := by
  unfold u16ofQ
  rw [truncQ_natCast]
  omega

lemma truncQ_mem (a b : ℤ) (q : ℚ) (h0 : 0 ≤ a) (ha : (a : ℚ) ≤ q)
    (hb : q ≤ (b : ℚ)) : a ≤ truncQ q ∧ truncQ q ≤ b := by
  have hq : ¬ q < 0 := by
    push_neg
    exact le_trans (by exact_mod_cast h0) ha
  unfold truncQ
  rw [if_neg hq]
  constructor
  · exact Int.le_floor.mpr ha
  · have := Int.floor_le q
    have : (⌊q⌋ : ℚ) ≤ (b : ℚ) := le_trans this hb
    exact_mod_cast this

lemma u16ofQ_mem (a b : ℕ) (q : ℚ) (ha : (a : ℚ) ≤ q) (hb : q ≤ (b : ℚ))
    (hlt : b < 65536) : a ≤ u16ofQ q ∧ u16ofQ q ≤ b := by
  obtain ⟨h1, h2⟩ := truncQ_mem a b q (by positivity) (by exact_mod_cast ha)
    (by exact_mod_cast hb)
  unfold u16ofQ
  omega

/-! ### Claim theorems about the PhysicalModel -/

/-- A single `Vehicle_Update` step with `dt > 0` lands every field in its
documented range, regardless of the input state: each field is written
through a clamp on its final assignment. -/
lemma vehicle_update_step_inv (vs : VehicleState_t) (dt : ℚ) (hdt : 0 < dt) :
    VehicleInv (Vehicle_Update vs dt) := by
  unfold Vehicle_Update
  rw [if_neg (not_le.mpr hdt)]
  refine ⟨?_, ?_, ?_, ?_, ?_, ?_⟩
  · exact (clamp_f_mem _ 0 200 (by norm_num)).1
  · exact (clamp_f_mem _ 0 200 (by norm_num)).2
  · have h := clamp_f_mem ((((vs.engine_rpm +
      u16ofQ ((800 + clamp_f (vs.speed_kph * (49/50)) 0 200 * 50 -
        (vs.engine_rpm : ℚ)) * (3/10))) % 65536 : ℕ) : ℚ)) 600 6000 (by norm_num)
    exact (u16ofQ_mem 600 6000 _ (by exact_mod_cast h.1) (by exact_mod_cast h.2)
      (by norm_num)).1
  · have h := clamp_f_mem ((((vs.engine_rpm +
      u16ofQ ((800 + clamp_f (vs.speed_kph * (49/50)) 0 200 * 50 -
        (vs.engine_rpm : ℚ)) * (3/10))) % 65536 : ℕ) : ℚ)) 600 6000 (by norm_num)
    exact (u16ofQ_mem 600 6000 _ (by exact_mod_cast h.1) (by exact_mod_cast h.2)
      (by norm_num)).2
  · exact (clamp_f_mem _ 20 110 (by norm_num)).1
  · exact (clamp_f_mem _ 20 110 (by norm_num)).2

/-- Claim C1: from any state satisfying the field invariants, any finite
sequence of `Vehicle_Update` calls with positive time steps keeps speed in
`[0,200]`, rpm in `[600,6000]` and temperature in `[20,110]`. -/
theorem vehicle_update_preserves_inv (vs : VehicleState_t) (dts : List ℚ)
    (hinv : VehicleInv vs) (hpos : ∀ dt ∈ dts, 0 < dt) :
    VehicleInv (dts.foldl Vehicle_Update vs) := by
  induction dts generalizing vs with
  | nil => exact hinv
  | cons dt rest ih =>
    simp only [List.foldl_cons]
    exact ih (Vehicle_Update vs dt)
      (vehicle_update_step_inv vs dt (hpos dt (by simp)))
      (fun d hd => hpos d (by simp [hd]))

/-- Witness for C1: the invariants hold after two concrete 0.1 s steps from
the idle defaults. -/
theorem vehicle_update_preserves_inv_witness :
    VehicleInv ([(1 : ℚ)/10, 1/10].foldl Vehicle_Update
      { speed_kph := 0, engine_rpm := 800, coolant_temp_c := 30 }) :=
  vehicle_update_preserves_inv _ _ (by decide) (by intro dt h; fin_cases h <;> norm_num)

/-- Counterexample to claim C4 as stated: a NaN input is NOT clamped into
`[0, 200]` — both comparisons of `clamp_f` (vehicle.c lines 33–34) are
false for NaN, so `Vehicle_SetTargetSpeed` assigns NaN to the speed field,
which lies in no interval. -/
theorem set_target_speed_nan_not_clamped :
    ¬ cfInRange ((Vehicle_SetTargetSpeed_float
        { speed_kph := CFloat.val 0, engine_rpm := 800,
          coolant_temp_c := CFloat.val 30 } CFloat.nan).speed_kph) 0 200 := by
  decide

/-- Claim C4 (amended): for every non-NaN input value `v` — including
negative values and extreme magnitudes — `Vehicle_SetTargetSpeed` assigns
a value in `[0, 200]` to speed (`v` clamped into range); a NaN input
propagates to the speed field unclamped; in all cases `engine_rpm` and
`coolant_temp_c` are unchanged. -/
theorem vehicle_set_target_speed_clamps_non_nan (vs : VehicleStateFloat)
    (v : CFloat) :
    ((∀ q : ℚ, v = CFloat.val q →
        cfInRange ((Vehicle_SetTargetSpeed_float vs v).speed_kph) 0 200) ∧
      (v = CFloat.nan →
        (Vehicle_SetTargetSpeed_float vs v).speed_kph = CFloat.nan)) ∧
    (Vehicle_SetTargetSpeed_float vs v).engine_rpm = vs.engine_rpm ∧
    (Vehicle_SetTargetSpeed_float vs v).coolant_temp_c = vs.coolant_temp_c := by
  refine ⟨⟨?_, ?_⟩, rfl, rfl⟩
  · intro q hq
    subst hq
    show cfInRange
      (clamp_f_float (CFloat.val q) (CFloat.val 0) (CFloat.val 200)) 0 200
    unfold clamp_f_float
    split_ifs with h1 h2
    · exact ⟨le_refl 0, by norm_num⟩
    · exact ⟨by norm_num, le_refl 200⟩
    · simp only [cfLt] at h1 h2
      exact ⟨by linarith, by linarith⟩
  · intro hq
    subst hq
    rfl

/-- Witness for C4 (amended): a concrete out-of-range value −5 is clamped
to a speed inside `[0, 200]`. -/
theorem vehicle_set_target_speed_clamps_non_nan_witness :
    cfInRange ((Vehicle_SetTargetSpeed_float
        { speed_kph := CFloat.val 0, engine_rpm := 800,
          coolant_temp_c := CFloat.val 30 } (CFloat.val (-5))).speed_kph) 0 200 :=
  (vehicle_set_target_speed_clamps_non_nan
    { speed_kph := CFloat.val 0, engine_rpm := 800,
      coolant_temp_c := CFloat.val 30 } (CFloat.val (-5))).1.1 (-5) rfl

/-- Claim C8: `Vehicle_Force` is idempotent — applying it twice with the
same arguments yields the same state as applying it once (each field is a
clamp of the arguments alone, independent of the prior state). -/
theorem vehicle_force_idempotent (vs : VehicleState_t) (s : ℚ) (r : ℕ) (t : ℚ) :
    Vehicle_Force (Vehicle_Force vs s r t) s r t = Vehicle_Force vs s r t := by
  rfl

/-- Counterexample to claim C3 as stated: encoding speed=25.0, rpm=2000,
temp=85.0 does not yield `[0xFA,0x00,0xD0,0x07,0x32,0x03]` — bytes 4–5 of
85.0×10 = 850 = 0x0352 are `[0x52,0x03]`, not `[0x32,0x03]`. -/
theorem telemetry_payload_claimed_bytes_wrong :
    CAN_IF_TelemetryPayload
      { speed_kph := 25, engine_rpm := 2000, coolant_temp_c := 85 } ≠
      [0xFA, 0x00, 0xD0, 0x07, 0x32, 0x03] := by
  norm_num [CAN_IF_TelemetryPayload, round_eq]
  decide

/-- Claim C3 (amended): encoding speed=25.0, rpm=2000, temp=85.0 under the
telemetry wire format yields the 6-byte payload
`[0xFA,0x00,0xD0,0x07,0x52,0x03]` (850 = 0x0352 little-endian). -/
theorem telemetry_payload_known_state :
    CAN_IF_TelemetryPayload
      { speed_kph := 25, engine_rpm := 2000, coolant_temp_c := 85 } =
      [0xFA, 0x00, 0xD0, 0x07, 0x52, 0x03] := by
  norm_num [CAN_IF_TelemetryPayload, round_eq]
  decide

/-- Claim C5: with a sink configured, `Log_Write` emits nothing exactly
when the record's level is numerically above the configured minimum level
(i.e. its severity is below the threshold — lower enum value means higher
severity), and otherwise emits exactly one formatted line; it never
mutates logger state (the model returns output only). -/
theorem log_write_level_filter (st : LogState) (level : ℕ)
    (module : Option String) (msg : String) (h : st.logUart = true) :
    (Log_Write st level module msg = [] ↔ st.logLevel < level) ∧
    (¬ st.logLevel < level → (Log_Write st level module msg).length = 1) := by
  refine ⟨⟨?_, ?_⟩, ?_⟩
  · intro he
    by_contra hlt
    simp [Log_Write, h, hlt] at he
  · intro hlt
    simp [Log_Write, hlt]
  · intro hnlt
    simp [Log_Write, h, hnlt]

/-- Witness for C5: at the default minimum level `LOG_LEVEL_INFO` (2) with
a configured sink, a `LOG_LEVEL_DEBUG` (3) record is dropped. -/
theorem log_write_level_filter_witness :
    (Log_Write { logUart := true, logLevel := 2 } 3 (some ("CLI")) ("boot") = []
      ↔ (2 : ℕ) < 3) ∧
    (¬ (2 : ℕ) < 3 →
      (Log_Write { logUart := true, logLevel := 2 } 3 (some ("CLI")) ("boot")).length = 1) :=
  log_write_level_filter { logUart := true, logLevel := 2 } 3 (some ("CLI")) ("boot") rfl

/-- Claim C6: a push onto a full ring buffer (advancing head would make it
equal tail) leaves the buffer — stored bytes and both indices — unchanged,
and a pop when `head == tail` returns 0 (empty) without writing the
out-pointer or modifying the buffer. -/
theorem cli_ring_drop_on_full_and_empty_pop (rb : CliRx) (c : ℕ) :
    (rb.head + 1 = rb.tail → cli_push c rb = rb) ∧
    (rb.head = rb.tail → cli_pop rb = (0, none, rb)) := by
  constructor
  · intro h
    simp [cli_push, h]
  · intro h
    simp [cli_pop, h]

/-- Witness for C6: a concrete full buffer (head 63, tail 0) drops a push;
a concrete empty buffer (head = tail = 5) reports empty on pop. -/
theorem cli_ring_drop_on_full_and_empty_pop_witness :
    cli_push 7 { buf := fun _ => 0, head := 63, tail := 0 } =
      { buf := fun _ => 0, head := 63, tail := 0 } ∧
    cli_pop { buf := fun _ => 0, head := 5, tail := 5 } =
      (0, none, { buf := fun _ => 0, head := 5, tail := 5 }) :=
  ⟨(cli_ring_drop_on_full_and_empty_pop
      { buf := fun _ => 0, head := 63, tail := 0 } 7).1 (by decide),
   (cli_ring_drop_on_full_and_empty_pop
      { buf := fun _ => 0, head := 5, tail := 5 } 0).2 (by decide)⟩

/-- Claim C10: the 64-slot ring buffer keeps one slot unused — a push
succeeds (head advances) exactly when fewer than 63 bytes are pending, and
under any interleaving of pushes and pops from the initial state the
pending-byte count `(head - tail) mod 64` never reaches 64. -/
theorem cli_ring_capacity_63 :
    (∀ rb : CliRx, rb.head + 1 ≠ rb.tail ↔ pendingBytes rb < 63) ∧
    (∀ ops : List CliRxOp, pendingBytes (ops.foldl cliRxStep cliRxInit) ≤ 63) := by
  constructor
  · intro rb
    have h1 : rb.head.val < 64 := rb.head.isLt
    have h2 : rb.tail.val < 64 := rb.tail.isLt
    have hv : (rb.head + 1).val = (rb.head.val + 1) % 64 := by
      rw [Fin.val_add]
      norm_num
    rw [ne_eq, Fin.ext_iff, hv, pendingBytes]
    omega
  · intro ops
    have h := Nat.mod_lt
      ((ops.foldl cliRxStep cliRxInit).head.val + 64 -
        (ops.foldl cliRxStep cliRxInit).tail.val)
      (show 0 < 64 by norm_num)
    unfold pendingBytes
    omega

/-- `cli_uart_print` never touches the bound vehicle. -/
lemma cli_uart_print_vehicle (st : CliState) (s : String) :
    (cli_uart_print st s).vehicle = st.vehicle := by
  unfold cli_uart_print
  split <;> rfl

/-- Feeding a run of ordinary (non-CR/LF) characters that fits in the
accumulator appends them to the line and leaves the vehicle untouched. -/
lemma cli_feed_plain (cs : List Char) : ∀ st : CliState,
    (∀ c ∈ cs, ¬ (c = '\r' ∨ c = '\n')) → st.line.length + cs.length ≤ 31 →
    (cs.foldl cli_handle_char st).vehicle = st.vehicle ∧
    (cs.foldl cli_handle_char st).line = st.line ++ cs := by
  induction cs with
  | nil =>
    intro st _ _
    simp
  | cons c rest ih =>
    intro st hc hlen
    simp only [List.foldl_cons]
    have hcne : ¬ (c = '\r' ∨ c = '\n') := hc c (List.mem_cons_self c rest)
    have hlt : st.line.length < 31 := by
      simp only [List.length_cons] at hlen
      omega
    have hstep : cli_handle_char st c =
        { st with
            line := st.line ++ [c]
            out := if st.uart = true then st.out ++ [String.mk [c]] else st.out } := by
      unfold cli_handle_char
      rw [if_neg hcne, if_pos hlt]
    rw [hstep]
    obtain ⟨h1, h2⟩ := ih
      { st with
          line := st.line ++ [c]
          out := if st.uart = true then st.out ++ [String.mk [c]] else st.out }
      (fun d hd => hc d (List.mem_cons_of_mem c hd))
      (by
        show (st.line ++ [c]).length + rest.length ≤ 31
        simp only [List.length_cons] at hlen
        simp only [List.length_append, List.length_cons, List.length_nil]
        omega)
    refine ⟨h1, ?_⟩
    rw [h2]
    simp

/-- On a CR/LF with a non-empty accumulator, `cli_handle_char` resets the
accumulator and dispatches its previous contents. -/
lemma cli_handle_term (st : CliState) (term : Char)
    (hterm : term = '\r' ∨ term = '\n') (hne : st.line ≠ []) :
    cli_handle_char st term = cli_dispatch { st with line := [] } st.line := by
  unfold cli_handle_char
  rw [if_pos hterm, if_neg (fun h => hne (List.length_eq_zero.mp h))]

/-- On the completed line `veh cool-hot` with a vehicle bound, dispatch
stores `Vehicle_Force vs vs.speed_kph vs.engine_rpm 115`. -/
lemma cli_dispatch_cool_hot (st : CliState) (vs : VehicleState_t)
    (h : st.vehicle = some vs) :
    (cli_dispatch st (("veh cool-hot").toList)).vehicle =
      some (Vehicle_Force vs vs.speed_kph vs.engine_rpm 115) := by
  unfold cli_dispatch
  rw [if_neg (by decide), if_neg (by decide), if_pos rfl, h]
  exact cli_uart_print_vehicle _ _

/-- Forcing the current speed and rpm with temperature 115 clamps the
temperature to 110 and, when the state satisfies its invariants, returns
speed and rpm unchanged. -/
lemma vehicle_force_cool_hot (vs : VehicleState_t)
    (hs0 : 0 ≤ vs.speed_kph) (hs1 : vs.speed_kph ≤ 200)
    (hr0 : 600 ≤ vs.engine_rpm) (hr1 : vs.engine_rpm ≤ 6000) :
    Vehicle_Force vs vs.speed_kph vs.engine_rpm 115 =
      { speed_kph := vs.speed_kph, engine_rpm := vs.engine_rpm,
        coolant_temp_c := 110 } := by
  have hs : clamp_f vs.speed_kph 0 200 = vs.speed_kph :=
    clamp_f_eq_self _ _ _ hs0 hs1
  have hr : u16ofQ (clamp_f ((vs.engine_rpm : ℕ) : ℚ) 600 6000) = vs.engine_rpm := by
    rw [clamp_f_eq_self _ _ _ (by exact_mod_cast hr0) (by exact_mod_cast hr1)]
    exact u16ofQ_natCast _ (by omega)
  have ht : clamp_f 115 20 110 = 110 := by
    unfold clamp_f
    norm_num
  unfold Vehicle_Force
  rw [hs, hr, ht]

/-- Counterexample to claim C2 as stated: from the idle state (speed 0,
rpm 800, temp 30) with a vehicle bound, dispatching `veh cool-hot` does
NOT produce coolant temperature 115 — `Vehicle_Force` clamps the 115 °C
injection into `[20, 110]`, storing 110. -/
theorem cli_cool_hot_not_115 :
    ((("veh cool-hot").toList ++ ['\r']).foldl cli_handle_char
        { uart := true,
          vehicle := some { speed_kph := 0, engine_rpm := 800, coolant_temp_c := 30 },
          canLogging := false, line := [], out := [] }).vehicle ≠
      some { speed_kph := 0, engine_rpm := 800, coolant_temp_c := 115 } := by
  rw [List.foldl_append]
  obtain ⟨hv, hl⟩ := cli_feed_plain (("veh cool-hot").toList)
    { uart := true,
      vehicle := some { speed_kph := 0, engine_rpm := 800, coolant_temp_c := 30 },
      canLogging := false, line := [], out := [] }
    (by decide) (by norm_num)
  simp only [List.foldl_cons, List.foldl_nil]
  set st1 := List.foldl cli_handle_char
    { uart := true,
      vehicle := some { speed_kph := 0, engine_rpm := 800, coolant_temp_c := 30 },
      canLogging := false, line := [], out := [] }
    (("veh cool-hot").toList) with hst1
  clear_value st1
  have hl' : st1.line = ("veh cool-hot").toList := by rw [hl]; rfl
  have hv' : ({ st1 with line := [] } : CliState).vehicle =
      some { speed_kph := 0, engine_rpm := 800, coolant_temp_c := (30 : ℚ) } := hv
  rw [cli_handle_term st1 '\r' (Or.inl rfl) (by rw [hl']; decide), hl']
  rw [cli_dispatch_cool_hot { st1 with line := [] }
    { speed_kph := 0, engine_rpm := 800, coolant_temp_c := (30 : ℚ) } hv']
  rw [vehicle_force_cool_hot _ (by norm_num) (by norm_num) (by norm_num) (by norm_num)]
  decide

/-- Claim C2 (amended): dispatching the command line `veh cool-hot` (CR-
or LF-terminated) with a vehicle bound leaves speed and rpm unchanged and
sets the coolant temperature to 110.0 — the fixed 115 °C overheat
injection clamped into the `[20, 110]` range by `Vehicle_Force` — for
every prior state satisfying the field invariants. -/
theorem cli_cool_hot_forces_clamped_110 (st : CliState) (vs : VehicleState_t)
    (term : Char) (hline : st.line = []) (hveh : st.vehicle = some vs)
    (hterm : term = '\r' ∨ term = '\n')
    (hs0 : 0 ≤ vs.speed_kph) (hs1 : vs.speed_kph ≤ 200)
    (hr0 : 600 ≤ vs.engine_rpm) (hr1 : vs.engine_rpm ≤ 6000) :
    ((("veh cool-hot").toList ++ [term]).foldl cli_handle_char st).vehicle =
      some { speed_kph := vs.speed_kph, engine_rpm := vs.engine_rpm,
             coolant_temp_c := 110 } := by
  rw [List.foldl_append]
  obtain ⟨hv, hl⟩ := cli_feed_plain (("veh cool-hot").toList) st (by decide)
    (by rw [hline]; norm_num)
  simp only [List.foldl_cons, List.foldl_nil]
  set st1 := List.foldl cli_handle_char st (("veh cool-hot").toList) with hst1
  clear_value st1
  have hl' : st1.line = ("veh cool-hot").toList := by rw [hl, hline]; rfl
  have hv' : ({ st1 with line := [] } : CliState).vehicle = some vs := by
    show st1.vehicle = some vs
    rw [hv, hveh]
  rw [cli_handle_term st1 term hterm (by rw [hl']; decide), hl']
  rw [cli_dispatch_cool_hot { st1 with line := [] } vs hv']
  rw [vehicle_force_cool_hot vs hs0 hs1 hr0 hr1]

/-- Witness for C2 (amended): from the idle defaults, `veh cool-hot`
terminated by LF yields speed 0, rpm 800, temperature 110. -/
theorem cli_cool_hot_forces_clamped_110_witness :
    ((("veh cool-hot").toList ++ ['\n']).foldl cli_handle_char
      { uart := true,
        vehicle := some { speed_kph := 0, engine_rpm := 800, coolant_temp_c := 30 },
        canLogging := false, line := [], out := [] }).vehicle =
      some { speed_kph := 0, engine_rpm := 800, coolant_temp_c := 110 } :=
  cli_cool_hot_forces_clamped_110 _ _ _ rfl rfl (Or.inr rfl)
    (by norm_num) (by norm_num) (by norm_num) (by norm_num)

/-- Counterexample to claim C7 as stated: with the accumulator at its
31-character capacity and a UART bound, a further ordinary byte is NOT
echoed — the transmit call sits inside the capacity branch, so the state
(including the transmitted-output list, still empty) is unchanged. -/
theorem cli_accumulator_full_no_echo :
    cli_handle_char
      { uart := true, vehicle := none, canLogging := false,
        line := ("0123456789abcdefghijklmnopqrstu").toList, out := [] } 'x' =
      { uart := true, vehicle := none, canLogging := false,
        line := ("0123456789abcdefghijklmnopqrstu").toList, out := [] } := by
  decide

/-- Claim C7 (amended): when the command-line accumulator is at capacity,
each further non-terminator input byte is silently discarded — not
appended, not re-queued, and not echoed: the CLI state is unchanged. -/
theorem cli_accumulator_full_ignores (st : CliState) (c : Char)
    (hfull : ¬ st.line.length < 31) (hc : ¬ (c = '\r' ∨ c = '\n')) :
    cli_handle_char st c = st := by
  unfold cli_handle_char
  rw [if_neg hc, if_neg hfull]

/-- Witness for C7: a concrete full accumulator ignores the byte `y`. -/
theorem cli_accumulator_full_ignores_witness :
    cli_handle_char
      { uart := true, vehicle := some Vehicle_Init, canLogging := false,
        line := ("0123456789ABCDEFGHIJKLMNOPQRSTU").toList, out := [] } 'y' =
      { uart := true, vehicle := some Vehicle_Init, canLogging := false,
        line := ("0123456789ABCDEFGHIJKLMNOPQRSTU").toList, out := [] } :=
  cli_accumulator_full_ignores _ 'y' (by decide) (by decide)

/-- Claim C9: every PhysicalModel operation is a total no-op on a NULL
state pointer, for all other argument values. -/
theorem vehicle_ops_null_noop :
    Vehicle_Init_ptr none = none ∧
    (∀ dt : ℚ, Vehicle_Update_ptr none dt = none) ∧
    (∀ v : ℚ, Vehicle_SetTargetSpeed_ptr none v = none) ∧
    (∀ (s : ℚ) (r : ℕ) (t : ℚ), Vehicle_Force_ptr none s r t = none) := by
  exact ⟨rfl, fun _ => rfl, fun _ => rfl, fun _ _ _ => rfl⟩
